import Mathlib

/-!
Verification development for the GitHub-to-Vercel deployment agent.

The TypeScript sources are embedded shallowly: JavaScript strings are Lean
strings, string primitives (split, trim, includes, toLowerCase, regex
replaces) are implemented over the character list, upstream HTTP services
(GitHub repository lookup, Vercel project/deployment endpoints) are passed
in as function-valued oracles, and thrown exceptions become `Except String`.
-/

/- ### JavaScript string primitives -/

/-- Whitespace recognized by JavaScript `String.prototype.trim` (ASCII part). -/
def isJsSpace (c : Char) : Bool :=
  c = ' ' || c = '\t' || c = '\n' || c = '\r' || c = '\x0b' || c = '\x0c'

/-- Drop whitespace from both ends of a character list. -/
def trimChars (cs : List Char) : List Char :=
  ((cs.dropWhile isJsSpace).reverse.dropWhile isJsSpace).reverse

/-- Embedding of JavaScript `String.prototype.trim`. -/
def jsTrim (s : String) : String :=
  String.mk (trimChars s.data)

/-- Split a character list on a single separator character, keeping empty
pieces, as JavaScript `String.prototype.split` with a one-character
separator does. -/
def splitOnChar (sep : Char) : List Char → List (List Char)
  | [] => [[]]
  | c :: rest =>
    if c = sep then
      [] :: splitOnChar sep rest
    else
      match splitOnChar sep rest with
      | [] => [[c]]
      | h :: t => (c :: h) :: t

/-- Embedding of JavaScript `String.prototype.split` with a one-character
separator. -/
def jsSplit (s : String) (sep : Char) : List String :=
  (splitOnChar sep s.data).map String.mk

/-- Check whether the first list occurs contiguously inside the second. -/
def hasInfix (sub : List Char) : List Char → Bool
  | [] => sub.isEmpty
  | c :: rest => sub.isPrefixOf (c :: rest) || hasInfix sub rest

/-- Embedding of JavaScript `String.prototype.includes`. -/
def jsIncludes (s sub : String) : Bool :=
  hasInfix sub.data s.data

/-- ASCII case folding of one character, as JavaScript `toLowerCase` acts on
the ASCII range. -/
def jsLowerChar (c : Char) : Char :=
  if 'A' ≤ c && c ≤ 'Z' then Char.ofNat (c.toNat + 32) else c

/-- Embedding of JavaScript `String.prototype.toLowerCase` on ASCII data. -/
def jsToLowerCase (s : String) : String :=
  String.mk (s.data.map jsLowerChar)

/- ### Untyped request parameters (JSON values from the request body) -/

/-- A JSON value as it arrives in an Express request body. -/
inductive JsonValue where
  | str : String → JsonValue
  | num : Int → JsonValue
  | bool : Bool → JsonValue
  | null : JsonValue
deriving DecidableEq

/-- JavaScript truthiness of a JSON value. -/
def JsonValue.truthy : JsonValue → Bool
  | .str s => s ≠ ""
  | .num n => n ≠ 0
  | .bool b => b
  | .null => false

/-- Truthiness of a possibly absent (`undefined`) object property. -/
def jsTruthy : Option JsonValue → Bool
  | none => false
  | some v => v.truthy

/-- Whether a possibly absent property holds a string (`typeof v === "string"`). -/
def isStringVal : Option JsonValue → Bool
  | some (.str _) => true
  | _ => false

/-- String coercion of a JSON value as JavaScript template interpolation does. -/
def JsonValue.toStr : JsonValue → String
  | .str s => s
  | .num n => toString n
  | .bool b => if b then "true" else "false"
  | .null => "null"

/-- The fields of an inbound tool request body that the controller reads. -/
structure ToolParams where
  repoUrl : Option JsonValue
  projectName : Option JsonValue
  framework : Option JsonValue
  deploymentId : Option JsonValue
deriving DecidableEq

namespace DeploymentService

/-- A parsed credential pair (`parseTokens` output). -/
structure TokenPair where
  githubToken : String
  vercelToken : String
deriving DecidableEq

/-- Embedding of `DeploymentService.parseTokens`: split the combined token on
the colon, require exactly two parts, trim both and require both non-empty. -/
def parseTokens (combinedToken : String) : Except String TokenPair :=
  let parts := jsSplit combinedToken ':'
  if parts.length ≠ 2 then
    .error "Token format should be \"github_token:vercel_token\""
  else
    let githubToken := parts.headD ""
    let vercelToken := (parts.drop 1).headD ""
    if jsTrim githubToken = "" || jsTrim vercelToken = "" then
      .error "Both GitHub and Vercel tokens are required"
    else
      .ok ⟨jsTrim githubToken, jsTrim vercelToken⟩

/-- Characters the sanitizer keeps: the class `[a-z0-9-]`. -/
def isAllowedChar (c : Char) : Bool :=
  ('a' ≤ c && c ≤ 'z') || ('0' ≤ c && c ≤ '9') || c = '-'

/-- Collapse every run of adjacent hyphens to a single hyphen, as the
replacement of the pattern `-+` by a single hyphen does. -/
def collapseHyphens : List Char → List Char
  | [] => []
  | [c] => [c]
  | c :: d :: rest =>
    if c = '-' && d = '-' then collapseHyphens (d :: rest)
    else c :: collapseHyphens (d :: rest)

/-- Remove one leading and one trailing hyphen, as the global replacement of
the anchored pattern (leading hyphen or trailing hyphen) by the empty string
does. -/
def trimEdgeHyphens (cs : List Char) : List Char :=
  let afterHead :=
    match cs with
    | '-' :: rest => rest
    | other => other
  match afterHead.reverse with
  | '-' :: rest => rest.reverse
  | _ => afterHead

/-- The sanitization pipeline applied to a caller-supplied project name:
lowercase, replace every character outside `[a-z0-9-]` by a hyphen, collapse
hyphen runs, trim one hyphen from each edge. -/
def sanitizeName (name : String) : String :=
  String.mk
    (trimEdgeHyphens
      (collapseHyphens
        ((jsToLowerCase name).data.map fun c =>
          if isAllowedChar c then c else '-')))

/-- Embedding of `DeploymentService.generateProjectName`: a truthy custom
name is sanitized, otherwise the owner-repo pair is joined with a hyphen and
lowercased. -/
def generateProjectName (owner repo : String) (customName : Option String) :
    String :=
  match customName with
  | some name =>
    if name ≠ "" then sanitizeName name
    else jsToLowerCase (owner ++ "-" ++ repo)
  | none => jsToLowerCase (owner ++ "-" ++ repo)

end DeploymentService

/- ### GitHub service -/

namespace GitHubService

/-- Repository metadata as returned by `validateRepository`. -/
structure GitHubRepoInfo where
  owner : String
  repo : String
  defaultBranch : String
  isPrivate : Bool
  fullName : String
  repoId : Nat
deriving DecidableEq

/-- Raw repository data returned by the GitHub repository-lookup endpoint. -/
structure RepoData where
  ownerLogin : String
  name : String
  defaultBranch : String
  isPrivate : Bool
  fullName : String
  id : Nat
deriving DecidableEq

/-- Outcome of an upstream HTTP call: success data, or a failure carrying an
optional HTTP status code and a message. -/
inductive ApiOutcome (α : Type) where
  | ok : α → ApiOutcome α
  | err : Option Nat → String → ApiOutcome α

/-- Strip a trailing `.git` from a repo segment when the remainder is
non-empty, as the non-greedy repo capture followed by the optional `.git`
group behaves. -/
def stripDotGit (seg : String) : String :=
  if seg.data.length > 4 && "tig.".data.isPrefixOf seg.data.reverse then
    String.mk (seg.data.take (seg.data.length - 4))
  else seg

/-- Embedding of `GitHubService.parseGitHubUrl`: try the HTTPS form, the SSH
form, then the bare owner-slash-repo form; first match wins. -/
def parseGitHubUrl (repoUrl : String) : Except String (String × String) :=
  let httpsPre := "https://github.com/".data
  let sshPre := "git@github.com:".data
  if httpsPre.isPrefixOf repoUrl.data then
    let rest := repoUrl.data.drop httpsPre.length
    match splitOnChar '/' rest with
    | owner :: repoSeg :: _ =>
      if owner ≠ [] && repoSeg ≠ [] then
        .ok (String.mk owner, stripDotGit (String.mk repoSeg))
      else .error ("Invalid GitHub repository URL: " ++ repoUrl)
    | _ => .error ("Invalid GitHub repository URL: " ++ repoUrl)
  else if sshPre.isPrefixOf repoUrl.data then
    let rest := repoUrl.data.drop sshPre.length
    match splitOnChar '/' rest with
    | [owner, repoSeg] =>
      if owner ≠ [] && repoSeg ≠ [] then
        .ok (String.mk owner, stripDotGit (String.mk repoSeg))
      else .error ("Invalid GitHub repository URL: " ++ repoUrl)
    | _ => .error ("Invalid GitHub repository URL: " ++ repoUrl)
  else
    match splitOnChar '/' repoUrl.data with
    | [owner, repoSeg] =>
      if owner ≠ [] && repoSeg ≠ [] then
        .ok (String.mk owner, String.mk repoSeg)
      else .error ("Invalid GitHub repository URL: " ++ repoUrl)
    | _ => .error ("Invalid GitHub repository URL: " ++ repoUrl)

/-- Embedding of `GitHubService.validateRepository`: parse the URL, query the
repository endpoint (passed as an oracle), and map HTTP failures 404, 401 and
403 to their dedicated messages; anything else becomes a generic GitHub API
error carrying the upstream message. A parse failure is caught by the same
handler and, holding no HTTP status, also surfaces as a generic API error. -/
def validateRepository (api : String → String → String → ApiOutcome RepoData)
    (token repoUrl : String) : Except String GitHubRepoInfo :=
  match parseGitHubUrl repoUrl with
  | .error msg => .error ("GitHub API error: " ++ msg)
  | .ok (owner, repo) =>
    match api token owner repo with
    | .ok d => .ok ⟨d.ownerLogin, d.name, d.defaultBranch, d.isPrivate,
        d.fullName, d.id⟩
    | .err (some 404) _ =>
      .error ("Repository not found or not accessible: " ++ repoUrl)
    | .err (some 401) _ => .error "GitHub token is invalid or expired"
    | .err (some 403) _ =>
      .error "GitHub token does not have permission to access this repository"
    | .err _ msg => .error ("GitHub API error: " ++ msg)

end GitHubService

/- ### Vercel data types and upstream oracles -/

/-- A Vercel project record. -/
structure VercelProject where
  id : String
  name : String
deriving DecidableEq

/-- A Vercel deployment record. -/
structure VercelDeployment where
  id : String
  url : String
  name : String
  state : String
  createdAt : Int
  projectId : String
  inspectorUrl : Option String
deriving DecidableEq

/-- The upstream services the orchestrator calls, passed in as oracles: the
GitHub repository-lookup endpoint and the three Vercel service methods. Each
Vercel oracle already carries its own service-level message wrapping. -/
structure Upstream where
  githubApi : String → String → String →
    GitHubService.ApiOutcome GitHubService.RepoData
  createProject : String → String → GitHubService.GitHubRepoInfo → String →
    Except String VercelProject
  createDeployment : String → VercelProject → GitHubService.GitHubRepoInfo →
    Except String VercelDeployment
  fetchDeployment : String → String → Except String VercelDeployment

namespace DeploymentService

/-- Typed parameters of `DeploymentService.deployRepository`. -/
structure DeployRepoParams where
  repoUrl : String
  projectName : Option String
  framework : Option String
deriving DecidableEq

/-- JavaScript `a || b` on an optional string: the string when truthy
(present and non-empty), the default otherwise. -/
def jsOrDefault (s : Option String) (dflt : String) : String :=
  match s with
  | some v => if v ≠ "" then v else dflt
  | none => dflt

/-- The composite result of a successful deploy. -/
structure DeploymentResult where
  deployment : VercelDeployment
  project : VercelProject
  message : String
deriving DecidableEq

/-- The body of `DeploymentService.deployRepository`'s try block: validate
the repository, resolve the project name, create or fetch the project,
create the deployment, and assemble the result. -/
def deployFlow (u : Upstream) (tokens : TokenPair)
    (params : DeployRepoParams) : Except String DeploymentResult := do
  let repoInfo ← GitHubService.validateRepository u.githubApi
    tokens.githubToken params.repoUrl
  let projectName := generateProjectName repoInfo.owner repoInfo.repo
    params.projectName
  let project ← u.createProject tokens.vercelToken projectName repoInfo
    (jsOrDefault params.framework "static")
  let deployment ← u.createDeployment tokens.vercelToken project repoInfo
  pure ⟨deployment, project,
    "Successfully initiated deployment of " ++ repoInfo.fullName ++
      " to Vercel"⟩

/-- Embedding of `DeploymentService.deployRepository`: run the deploy flow
and re-throw any error with the deploy prefix prepended. -/
def deployRepository (u : Upstream) (tokens : TokenPair)
    (params : DeployRepoParams) : Except String DeploymentResult :=
  match deployFlow u tokens params with
  | .ok r => .ok r
  | .error m => .error ("Deployment failed: " ++ m)

/-- The fixed status-message lookup table, as own-property lookup on the
object literal inside `getDeploymentStatus`. -/
def statusMessages (state : String) : Option String :=
  if state = "BUILDING" then some "Deployment is currently building"
  else if state = "ERROR" then some "Deployment failed with errors"
  else if state = "INITIALIZING" then some "Deployment is initializing"
  else if state = "QUEUED" then
    some "Deployment is queued and waiting to start"
  else if state = "READY" then some "Deployment is live and ready"
  else if state = "CANCELED" then some "Deployment was canceled"
  else none

/-- The status summary returned by `getDeploymentStatus` on success. -/
structure StatusResult where
  deployment : VercelDeployment
  status : String
  message : String
  isLive : Bool
  hasError : Bool
deriving DecidableEq

/-- The summary object literal built from a fetched deployment. -/
def summarize (d : VercelDeployment) : StatusResult :=
  { deployment := d
    status := d.state
    message := (statusMessages d.state).getD "Unknown deployment status"
    isLive := d.state = "READY"
    hasError := d.state = "ERROR" }

/-- The body of `DeploymentService.getDeploymentStatus`'s try block: fetch
the deployment through the Vercel service and summarize its state. -/
def statusFlow (u : Upstream) (vercelToken deploymentId : String) :
    Except String StatusResult :=
  match u.fetchDeployment vercelToken deploymentId with
  | .ok d => .ok (summarize d)
  | .error m => .error m

/-- Embedding of `DeploymentService.getDeploymentStatus`: run the status flow
and re-throw any error with the status prefix prepended. -/
def getDeploymentStatus (u : Upstream) (vercelToken deploymentId : String) :
    Except String StatusResult :=
  match statusFlow u vercelToken deploymentId with
  | .ok r => .ok r
  | .error m => .error ("Failed to get deployment status: " ++ m)

end DeploymentService

/- ### ISO-8601 rendering of epoch-millisecond timestamps -/

/-- Left-pad the decimal rendering of a number with zeros to a fixed width. -/
def padZeros (w : Nat) (n : Nat) : String :=
  let s := toString n
  if s.length < w then String.mk (List.replicate (w - s.length) '0' ++ s.data)
  else s

/-- Convert a day count since the Unix epoch to a proleptic-Gregorian civil
date (year, month, day). -/
def civilFromDays (day : Int) : Int × Nat × Nat :=
  let z := day + 719468
  let era := Int.ediv z 146097
  let doe := (z - era * 146097).toNat
  let yoe := (doe - doe / 1460 + doe / 36524 - doe / 146096) / 365
  let doy := doe - (365 * yoe + yoe / 4 - yoe / 100)
  let mp := (5 * doy + 2) / 153
  let d := doy - (153 * mp + 2) / 5 + 1
  let m := if mp < 10 then mp + 3 else mp - 9
  (era * 400 + yoe + (if m ≤ 2 then 1 else 0), m, d)

/-- Embedding of the ECMAScript `Date.prototype.toISOString` builtin applied
to an epoch-millisecond timestamp, as `new Date(ms).toISOString()` in the
controllers renders `createdAt`. -/
def toISOString (ms : Int) : String :=
  let day := Int.ediv ms 86400000
  let msod := (Int.emod ms 86400000).toNat
  let ymd := civilFromDays day
  let y := ymd.1
  let yearStr :=
    if y < 0 then "-" ++ padZeros 6 (-y).toNat
    else if y > 9999 then "+" ++ padZeros 6 y.toNat
    else padZeros 4 y.toNat
  yearStr ++ "-" ++ padZeros 2 ymd.2.1 ++ "-" ++ padZeros 2 ymd.2.2 ++
    "T" ++ padZeros 2 (msod / 3600000) ++ ":" ++
    padZeros 2 (msod % 3600000 / 60000) ++ ":" ++
    padZeros 2 (msod % 60000 / 1000) ++ "." ++ padZeros 3 (msod % 1000) ++ "Z"

/- ### Request adapter (the two AppController variants) -/

namespace AppController

/-- The error envelope (`BaseErrorResponseDto`): message, numeric status,
context string. -/
structure ErrorResponse where
  message : String
  status : Nat
  context : String
deriving DecidableEq

/-- The success envelope data built by `handleDeployRepo`. -/
structure DeploySuccessData where
  deploymentId : String
  deploymentUrl : String
  projectName : String
  status : String
  message : String
  repository : String
  framework : String
  inspectorUrl : Option String
  toolType : String
deriving DecidableEq

/-- The success envelope data built to `handleGetDeploymentStatus`. -/
structure StatusSuccessData where
  deploymentId : String
  status : String
  deploymentUrl : String
  message : String
  isLive : Bool
  hasError : Bool
  createdAt : String
  inspectorUrl : Option String
  toolType : String
deriving DecidableEq

/-- The response the controller serializes for the caller. -/
inductive ToolResponse where
  | deployOk : DeploySuccessData → ToolResponse
  | statusOk : StatusSuccessData → ToolResponse
  | failure : ErrorResponse → ToolResponse
deriving DecidableEq

/-- Embedding of `AppController.validateDeployRepoParameters`: repoUrl must
be truthy, a string, and contain the substring github.com; projectName and
framework, when truthy, must be strings. -/
def validateDeployRepoParameters (params : ToolParams) :
    Except String Unit :=
  if ¬ jsTruthy params.repoUrl then
    .error "Missing required parameter: repoUrl"
  else if ¬ isStringVal params.repoUrl then
    .error "Parameter 'repoUrl' must be a string"
  else if ¬ jsIncludes ((params.repoUrl.getD .null).toStr) "github.com" then
    .error "Parameter 'repoUrl' must be a valid GitHub repository URL"
  else if jsTruthy params.projectName && ¬ isStringVal params.projectName then
    .error "Parameter 'projectName' must be a string"
  else if jsTruthy params.framework && ¬ isStringVal params.framework then
    .error "Parameter 'framework' must be a string"
  else
    .ok ()

/-- The string value of a request-body property, for properties the code
only reads after establishing they hold strings (or passes through falsy). -/
def strField : Option JsonValue → Option String
  | some (.str s) => some s
  | _ => none

/-- The typed service parameters the controller builds from the request
body once validation has passed. -/
def serviceParams (params : ToolParams) : DeploymentService.DeployRepoParams :=
  { repoUrl := (params.repoUrl.getD .null).toStr
    projectName := strField params.projectName
    framework := some (DeploymentService.jsOrDefault
      (strField params.framework) "static") }

/-- Embedding of `AppController.handleDeployRepo` (identical in both
controller variants): validate parameters (a failure here escapes, `.error`),
run the deploy, and answer either the deploy success envelope or a 400 error
envelope wrapping the orchestrator message. -/
def handleDeployRepo (u : Upstream) (tokens : DeploymentService.TokenPair)
    (params : ToolParams) : Except String ToolResponse := do
  validateDeployRepoParameters params
  match DeploymentService.deployRepository u tokens (serviceParams params) with
  | .ok result =>
    pure (.deployOk
      { deploymentId := result.deployment.id
        deploymentUrl := "https://" ++ result.deployment.url
        projectName := result.project.name
        status := result.deployment.state
        message := result.message
        repository := (params.repoUrl.getD .null).toStr
        framework := DeploymentService.jsOrDefault
          (strField params.framework) "static"
        inspectorUrl := result.deployment.inspectorUrl
        toolType := "deployment" })
  | .error msg =>
    pure (.failure ⟨msg, 400, "Deployment failed"⟩)

/-- Embedding of `AppController.handleGetDeploymentStatus` (identical in both
controller variants): a falsy deploymentId escapes as a thrown error; then
run the status check and answer either the status success envelope or a 400
error envelope wrapping the orchestrator message. -/
def handleGetDeploymentStatus (u : Upstream) (vercelToken : String)
    (params : ToolParams) : Except String ToolResponse := do
  if ¬ jsTruthy params.deploymentId then
    throw "Missing required parameter: deploymentId"
  match DeploymentService.getDeploymentStatus u vercelToken
      ((params.deploymentId.getD .null).toStr) with
  | .ok result =>
    pure (.statusOk
      { deploymentId := result.deployment.id
        status := result.deployment.state
        deploymentUrl := "https://" ++ result.deployment.url
        message := result.message
        isLive := result.isLive
        hasError := result.hasError
        createdAt := toISOString result.deployment.createdAt
        inspectorUrl := result.deployment.inspectorUrl
        toolType := "deployment_status" })
  | .error msg =>
    pure (.failure ⟨msg, 400, "Failed to get deployment status"⟩)

/-- The tool dispatch shared by both `handleTool` bodies once credentials are
in hand, together with the surrounding catch that maps an escaped exception
to a 500 envelope and an unknown tool name to a 404 envelope. -/
def dispatchTool (u : Upstream) (tokens : DeploymentService.TokenPair)
    (toolName : String) (params : ToolParams) : ToolResponse :=
  if toolName = "deployRepo" then
    match handleDeployRepo u tokens params with
    | .ok r => r
    | .error m => .failure ⟨m, 500, "Tool execution failed"⟩
  else if toolName = "getDeploymentStatus" then
    match handleGetDeploymentStatus u tokens.vercelToken params with
    | .ok r => r
    | .error m => .failure ⟨m, 500, "Tool execution failed"⟩
  else
    .failure ⟨"Unknown tool: " ++ toolName, 404,
      "Available tools: deployRepo, getDeploymentStatus"⟩

/-- An inbound request for the bearer-token controller variant. -/
structure BearerRequest where
  toolName : String
  authorization : Option String
  params : ToolParams

/-- Embedding of `AppController.extractBearerToken`: a truthy Authorization
header starting with the Bearer marker yields the rest of the header. -/
def extractBearerToken (authorization : Option String) : Option String :=
  match authorization with
  | some h =>
    if h ≠ "" && "Bearer ".data.isPrefixOf h.data then
      some (String.mk (h.data.drop 7))
    else none
  | none => none

/-- Embedding of `AppController.handleTool` in the combined bearer-token
variant. The guard on the extracted token is a JavaScript truthiness check,
so both an absent token (no header, or one without the Bearer marker) and an
extracted empty-string token (header exactly the Bearer marker) answer 401;
an unparsable combined token answers 400, and the shared dispatch handles
the rest. -/
def handleToolBearer (u : Upstream) (req : BearerRequest) : ToolResponse :=
  match extractBearerToken req.authorization with
  | none =>
    .failure ⟨"Deployment tools require authentication. Please provide Bearer token in format \"github_token:vercel_token\"",
      401, "Missing Authorization header with Bearer token"⟩
  | some token =>
    if token = "" then
      .failure ⟨"Deployment tools require authentication. Please provide Bearer token in format \"github_token:vercel_token\"",
        401, "Missing Authorization header with Bearer token"⟩
    else
      match DeploymentService.parseTokens token with
      | .error msg =>
        .failure ⟨msg, 400, "Token format should be \"github_token:vercel_token\""⟩
      | .ok tokens => dispatchTool u tokens req.toolName req.params

/-- An inbound request for the two-header controller variant. -/
structure HeaderRequest where
  toolName : String
  xGithub : Option String
  xVercel : Option String
  params : ToolParams

/-- Embedding of `AppController.extractTokensFromHeaders`: both headers must
be present, truthy, and non-blank after trimming; the trimmed values form the
credential pair. -/
def extractTokensFromHeaders (xGithub xVercel : Option String) :
    Option DeploymentService.TokenPair :=
  match xGithub, xVercel with
  | some g, some v =>
    if g = "" || v = "" then none
    else if jsTrim g = "" || jsTrim v = "" then none
    else some ⟨jsTrim g, jsTrim v⟩
  | _, _ => none

/-- Embedding of `AppController.handleTool` in the two-header variant:
missing or blank headers answer 401, and the shared dispatch handles the
rest. -/
def handleToolHeaders (u : Upstream) (req : HeaderRequest) : ToolResponse :=
  match extractTokensFromHeaders req.xGithub req.xVercel with
  | none =>
    .failure ⟨"Deployment tools require authentication. Please provide x-github and x-vercel headers",
      401, "Missing x-github and/or x-vercel headers"⟩
  | some tokens => dispatchTool u tokens req.toolName req.params

end AppController

/- ### Concrete upstream fixtures used by witnesses and counterexamples -/

/-- Repository data a healthy GitHub lookup returns for acme/site. -/
def okRepoData : GitHubService.RepoData :=
  ⟨"acme", "site", "main", false, "acme/site", 42⟩

/-- A Vercel project fixture. -/
def okProject : VercelProject := ⟨"prj_1", "acme-site"⟩

/-- A Vercel deployment fixture in the QUEUED state. -/
def okDeployment : VercelDeployment :=
  ⟨"dpl_1", "acme-site.vercel.app", "acme-site", "QUEUED", 1700000000000,
    "prj_1", some "https://vercel.com/inspect/dpl_1"⟩

/-- Upstream services where every call succeeds. -/
def happyUpstream : Upstream :=
  { githubApi := fun _ _ _ => .ok okRepoData
    createProject := fun _ _ _ _ => .ok okProject
    createDeployment := fun _ _ _ => .ok okDeployment
    fetchDeployment := fun _ _ => .ok okDeployment }

/-- Upstream services where the GitHub repository lookup answers HTTP 404. -/
def notFoundUpstream : Upstream :=
  { happyUpstream with githubApi := fun _ _ _ => .err (some 404) "Not Found" }

/-- A request body carrying no parameters at all. -/
def emptyParams : ToolParams := ⟨none, none, none, none⟩

/-- A well-formed deploy request body for acme/site. -/
def deployParams : ToolParams :=
  ⟨some (.str "https://github.com/acme/site"), none, none, none⟩

/- ### Monadic reduction helpers -/

/-- Sequencing after a thrown error short-circuits in the Except monad. -/
theorem except_error_bind {α β : Type} (e : String)
    (f : α → Except String β) : (Except.error e >>= f) = Except.error e := rfl

/-- Sequencing after a success applies the continuation in the Except
monad. -/
theorem except_okay_bind {α β : Type} (a : α)
    (f : α → Except String β) : (Except.ok a >>= f) = f a := rfl

/- ### Non-emptiness facts about accepted combined tokens -/

/-- A combined token the parser accepts is non-empty: the empty token splits
into a single piece and is rejected with the format error. -/
theorem parseTokens_okay_nonempty (tok : String)
    (tokens : DeploymentService.TokenPair)
    (h : DeploymentService.parseTokens tok = .ok tokens) : tok ≠ "" := by
  intro habs
  rw [habs] at h
  have h0 : DeploymentService.parseTokens "" =
      Except.error "Token format should be \"github_token:vercel_token\"" :=
    rfl
  rw [h0] at h
  exact Except.noConfusion h

/-- A combined token that splits into exactly two colon-separated pieces is
non-empty: the empty token splits into the single empty piece. -/
theorem split_two_nonempty (tok gh vc : String)
    (h : jsSplit tok ':' = [gh, vc]) : tok ≠ "" := by
  intro habs
  rw [habs] at h
  have h0 : jsSplit "" ':' = [""] := rfl
  rw [h0] at h
  simp at h

/- ### Claim theorems -/

/-- Claim C5: parseTokens maps "gh:vc" to the pair gh/vc, trims " gh : vc "
to the same pair, rejects zero or more than one separator with the format
error, and rejects an empty or whitespace-only side with the both-required
error. -/
theorem C5_parseTokens_cases :
    DeploymentService.parseTokens "gh:vc" = .ok ⟨"gh", "vc"⟩ ∧
    DeploymentService.parseTokens " gh : vc " = .ok ⟨"gh", "vc"⟩ ∧
    DeploymentService.parseTokens "gh" =
      .error "Token format should be \"github_token:vercel_token\"" ∧
    DeploymentService.parseTokens "gh:mid:vc" =
      .error "Token format should be \"github_token:vercel_token\"" ∧
    DeploymentService.parseTokens ":vc" =
      .error "Both GitHub and Vercel tokens are required" ∧
    DeploymentService.parseTokens "gh:" =
      .error "Both GitHub and Vercel tokens are required" ∧
    DeploymentService.parseTokens ":" =
      .error "Both GitHub and Vercel tokens are required" :=
  ⟨rfl, rfl, rfl, rfl, rfl, rfl, rfl⟩

/-- Claim C6: a supplied project name is sanitized (lowercase, characters
outside the allowed class become hyphens, hyphen runs collapse, edge hyphens
are trimmed), so "My Project!" becomes "my-project" and "--a--b--" becomes
"a-b"; with no supplied name the resolved name is the lowercased
owner-hyphen-repo join, so Acme/Site gives "acme-site". -/
theorem C6_project_name_resolution :
    DeploymentService.sanitizeName "My Project!" = "my-project" ∧
    DeploymentService.sanitizeName "--a--b--" = "a-b" ∧
    DeploymentService.generateProjectName "Acme" "Site" none = "acme-site" ∧
    (∀ owner repo : String,
      DeploymentService.generateProjectName owner repo none =
        jsToLowerCase (owner ++ "-" ++ repo)) ∧
    (∀ name : String, name ≠ "" → ∀ owner repo : String,
      DeploymentService.generateProjectName owner repo (some name) =
        DeploymentService.sanitizeName name) := by
  refine ⟨by decide, by decide, by decide, fun owner repo => rfl, ?_⟩
  intro name hname owner repo
  simp [DeploymentService.generateProjectName, hname]

/-- Witness for C6: the supplied-name branch at the concrete name from the
claim. -/
theorem C6_project_name_resolution_witness :
    DeploymentService.generateProjectName "Acme" "Site" (some "My Project!") =
      DeploymentService.sanitizeName "My Project!" :=
  C6_project_name_resolution.2.2.2.2 "My Project!" (by decide) "Acme" "Site"

/-- Claim C8: for every deployment, the summary's isLive and hasError
booleans are never both true. -/
theorem C8_isLive_hasError_exclusive :
    ∀ d : VercelDeployment,
      ((DeploymentService.summarize d).isLive &&
        (DeploymentService.summarize d).hasError) = false := by
  intro d
  by_cases h : d.state = "READY"
  · simp [DeploymentService.summarize, h]
  · simp [DeploymentService.summarize, h]

/-- Claim C10: a non-empty supplied name with no character in the class
a-z or 0-9 after lowercasing sanitizes to the empty project name, while a
supplied empty-string name is treated as absent and the synthesized
owner-hyphen-repo name is used instead. -/
theorem C10_degenerate_names :
    (∀ name : String, name ≠ "" →
      (∀ c ∈ (jsToLowerCase name).data,
        ¬ (('a' ≤ c ∧ c ≤ 'z') ∨ ('0' ≤ c ∧ c ≤ '9'))) →
      ∀ owner repo : String,
        DeploymentService.generateProjectName owner repo (some name) = "") ∧
    (∀ owner repo : String,
      DeploymentService.generateProjectName owner repo (some "") =
        jsToLowerCase (owner ++ "-" ++ repo)) ∧
    DeploymentService.sanitizeName "!!!" = "" := by
  refine ⟨?_, fun owner repo => rfl, by decide⟩
  intro name hname hchars owner repo
  have hgen : DeploymentService.generateProjectName owner repo (some name) =
      DeploymentService.sanitizeName name := by
    simp [DeploymentService.generateProjectName, hname]
  rw [hgen]
  unfold DeploymentService.sanitizeName
  set L := (jsToLowerCase name).data with hL
  have hmapped : ∀ c ∈ L.map (fun c =>
      if DeploymentService.isAllowedChar c then c else '-'), c = '-' := by
    intro c hc
    obtain ⟨c0, hc0, hc0eq⟩ := List.mem_map.mp hc
    by_cases hall : DeploymentService.isAllowedChar c0
    · have := hchars c0 hc0
      unfold DeploymentService.isAllowedChar at hall
      simp only [Bool.or_eq_true, Bool.and_eq_true, decide_eq_true_eq] at hall
      rcases hall with h1 | h2
      · rcases h1 with h1 | h1
        · exact absurd (Or.inl h1) this
        · exact absurd (Or.inr h1) this
      · rw [← hc0eq]
        simp [DeploymentService.isAllowedChar, h2]
    · rw [← hc0eq]
      simp [hall]
  have hne : L ≠ [] := by
    rw [hL]
    cases name with
    | mk data =>
      cases data with
      | nil => exact absurd rfl hname
      | cons c cs => simp [jsToLowerCase]
  have hcollapse : DeploymentService.collapseHyphens
      (L.map (fun c => if DeploymentService.isAllowedChar c then c else '-')) =
      ['-'] := by
    have hnem : L.map (fun c =>
        if DeploymentService.isAllowedChar c then c else '-') ≠ [] := by
      simpa using hne
    revert hmapped hnem
    generalize L.map (fun c =>
      if DeploymentService.isAllowedChar c then c else '-') = M
    intro hmapped hnem
    induction M with
    | nil => exact absurd rfl hnem
    | cons c rest ih =>
      cases rest with
      | nil =>
        have : c = '-' := hmapped c (by simp)
        simp [DeploymentService.collapseHyphens, this]
      | cons d rest2 =>
        have hc : c = '-' := hmapped c (by simp)
        have hd : d = '-' := hmapped d (by simp)
        have hrest : DeploymentService.collapseHyphens (d :: rest2) = ['-'] := by
          apply ih
          · intro x hx
            exact hmapped x (List.mem_cons_of_mem c hx)
          · simp
        subst hc
        subst hd
        simpa [DeploymentService.collapseHyphens] using hrest
  rw [hcollapse]
  rfl

/-- Witness for C10: the all-punctuation name from the claim resolves to the
empty project name. -/
theorem C10_degenerate_names_witness :
    DeploymentService.generateProjectName "Acme" "Site" (some "!!!") = "" :=
  C10_degenerate_names.1 "!!!" (by decide) (by decide) "Acme" "Site"

/-- Claim C2: a successful status check answers the summary built from the
fetched deployment; in that summary isLive holds exactly for the READY state,
hasError exactly for the ERROR state, the raw state is passed through
unchanged as the status field, the message comes from the fixed six-entry
table for recognized states, and every unrecognized state yields the unknown
message. -/
theorem C2_status_translation :
    (∀ (u : Upstream) (tok id : String) (d : VercelDeployment),
      u.fetchDeployment tok id = .ok d →
      DeploymentService.getDeploymentStatus u tok id =
        .ok (DeploymentService.summarize d)) ∧
    (∀ d : VercelDeployment,
      ((DeploymentService.summarize d).isLive = true ↔ d.state = "READY") ∧
      ((DeploymentService.summarize d).hasError = true ↔ d.state = "ERROR") ∧
      (DeploymentService.summarize d).status = d.state ∧
      (∀ msg, DeploymentService.statusMessages d.state = some msg →
        (DeploymentService.summarize d).message = msg) ∧
      (DeploymentService.statusMessages d.state = none →
        (DeploymentService.summarize d).message =
          "Unknown deployment status")) ∧
    DeploymentService.statusMessages "BUILDING" =
      some "Deployment is currently building" ∧
    DeploymentService.statusMessages "ERROR" =
      some "Deployment failed with errors" ∧
    DeploymentService.statusMessages "INITIALIZING" =
      some "Deployment is initializing" ∧
    DeploymentService.statusMessages "QUEUED" =
      some "Deployment is queued and waiting to start" ∧
    DeploymentService.statusMessages "READY" =
      some "Deployment is live and ready" ∧
    DeploymentService.statusMessages "CANCELED" =
      some "Deployment was canceled" ∧
    (∀ state : String, state ≠ "BUILDING" → state ≠ "ERROR" →
      state ≠ "INITIALIZING" → state ≠ "QUEUED" → state ≠ "READY" →
      state ≠ "CANCELED" → DeploymentService.statusMessages state = none) := by
  refine ⟨?_, ?_, rfl, rfl, rfl, rfl, rfl, rfl, ?_⟩
  · intro u tok id d h
    simp [DeploymentService.getDeploymentStatus, DeploymentService.statusFlow,
      h]
  · intro d
    refine ⟨by simp [DeploymentService.summarize], by
      simp [DeploymentService.summarize], rfl, ?_, ?_⟩
    · intro msg h
      simp [DeploymentService.summarize, h]
    · intro h
      simp [DeploymentService.summarize, h]
  · intro state h1 h2 h3 h4 h5 h6
    simp [DeploymentService.statusMessages, h1, h2, h3, h4, h5, h6]

/-- Witness for C2: the happy fetch oracle yields the summary of the fixture
deployment, whose state QUEUED maps to the building-queue message. -/
theorem C2_status_translation_witness :
    DeploymentService.getDeploymentStatus happyUpstream "vc" "dpl_1" =
      .ok (DeploymentService.summarize okDeployment) ∧
    DeploymentService.summarize okDeployment =
      ⟨okDeployment, "QUEUED", "Deployment is queued and waiting to start",
        false, false⟩ :=
  ⟨C2_status_translation.1 happyUpstream "vc" "dpl_1" okDeployment rfl,
    by decide⟩

/-- Claim C3: every error of the deploy flow is re-thrown with the deploy
prefix prepended to the original message, every error of the status flow is
re-thrown with the status prefix prepended, and both flows pass successes
through untouched (nothing is retried or suppressed). -/
theorem C3_error_propagation :
    (∀ (u : Upstream) (t : DeploymentService.TokenPair)
       (p : DeploymentService.DeployRepoParams) (m : String),
      DeploymentService.deployFlow u t p = .error m →
      DeploymentService.deployRepository u t p =
        .error ("Deployment failed: " ++ m)) ∧
    (∀ (u : Upstream) (vt id m : String),
      DeploymentService.statusFlow u vt id = .error m →
      DeploymentService.getDeploymentStatus u vt id =
        .error ("Failed to get deployment status: " ++ m)) ∧
    (∀ (u : Upstream) (t : DeploymentService.TokenPair)
       (p : DeploymentService.DeployRepoParams)
       (r : DeploymentService.DeploymentResult),
      DeploymentService.deployFlow u t p = .ok r →
      DeploymentService.deployRepository u t p = .ok r) ∧
    (∀ (u : Upstream) (vt id : String)
       (r : DeploymentService.StatusResult),
      DeploymentService.statusFlow u vt id = .ok r →
      DeploymentService.getDeploymentStatus u vt id = .ok r) := by
  refine ⟨?_, ?_, ?_, ?_⟩
  · intro u t p m h
    simp [DeploymentService.deployRepository, h]
  · intro u vt id m h
    simp [DeploymentService.getDeploymentStatus, h]
  · intro u t p r h
    simp [DeploymentService.deployRepository, h]
  · intro u vt id r h
    simp [DeploymentService.getDeploymentStatus, h]

/-- Witness for C3: with the GitHub lookup answering 404, the deploy flow's
repository-not-found message is re-thrown with the deploy prefix. -/
theorem C3_error_propagation_witness :
    DeploymentService.deployRepository notFoundUpstream ⟨"gh", "vc"⟩
      ⟨"https://github.com/acme/site", none, none⟩ =
      .error ("Deployment failed: " ++
        "Repository not found or not accessible: https://github.com/acme/site") :=
  C3_error_propagation.1 notFoundUpstream ⟨"gh", "vc"⟩
    ⟨"https://github.com/acme/site", none, none⟩
    "Repository not found or not accessible: https://github.com/acme/site"
    rfl

/-- Claim C7: a successful deploy answers the envelope whose deploymentUrl is
the platform url prefixed with the scheme, whose status is the raw deployment
state, which echoes the repository input and the framework (caller value or
the static default), and which carries the inspector url; a successful status
check answers the envelope carrying isLive, hasError and the ISO-8601
rendering of createdAt. -/
theorem C7_success_envelopes :
    (∀ (u : Upstream) (tokens : DeploymentService.TokenPair)
       (params : ToolParams) (result : DeploymentService.DeploymentResult),
      AppController.validateDeployRepoParameters params = .ok () →
      DeploymentService.deployRepository u tokens
        (AppController.serviceParams params) = .ok result →
      AppController.handleDeployRepo u tokens params = .ok (.deployOk
        { deploymentId := result.deployment.id
          deploymentUrl := "https://" ++ result.deployment.url
          projectName := result.project.name
          status := result.deployment.state
          message := result.message
          repository := (params.repoUrl.getD .null).toStr
          framework := DeploymentService.jsOrDefault
            (AppController.strField params.framework) "static"
          inspectorUrl := result.deployment.inspectorUrl
          toolType := "deployment" })) ∧
    (∀ (u : Upstream) (vt : String) (params : ToolParams)
       (result : DeploymentService.StatusResult),
      jsTruthy params.deploymentId = true →
      DeploymentService.getDeploymentStatus u vt
        ((params.deploymentId.getD .null).toStr) = .ok result →
      AppController.handleGetDeploymentStatus u vt params = .ok (.statusOk
        { deploymentId := result.deployment.id
          status := result.deployment.state
          deploymentUrl := "https://" ++ result.deployment.url
          message := result.message
          isLive := result.isLive
          hasError := result.hasError
          createdAt := toISOString result.deployment.createdAt
          inspectorUrl := result.deployment.inspectorUrl
          toolType := "deployment_status" })) := by
  constructor
  · intro u tokens params result h1 h2
    simp [AppController.handleDeployRepo, h1, h2]
  · intro u vt params result h1 h2
    simp [AppController.handleGetDeploymentStatus, h1, h2]
    rfl

/-- Witness for C7: the happy-path fixtures yield both success envelopes
with their concrete field values, including the ISO-8601 createdAt. -/
theorem C7_success_envelopes_witness :
    AppController.handleDeployRepo happyUpstream ⟨"gh", "vc"⟩ deployParams =
      .ok (.deployOk
        { deploymentId := "dpl_1"
          deploymentUrl := "https://acme-site.vercel.app"
          projectName := "acme-site"
          status := "QUEUED"
          message := "Successfully initiated deployment of acme/site to Vercel"
          repository := "https://github.com/acme/site"
          framework := "static"
          inspectorUrl := some "https://vercel.com/inspect/dpl_1"
          toolType := "deployment" }) ∧
    AppController.handleGetDeploymentStatus happyUpstream "vc"
      ⟨none, none, none, some (.str "dpl_1")⟩ =
      .ok (.statusOk
        { deploymentId := "dpl_1"
          status := "QUEUED"
          deploymentUrl := "https://acme-site.vercel.app"
          message := "Deployment is queued and waiting to start"
          isLive := false
          hasError := false
          createdAt := "2023-11-14T22:13:20.000Z"
          inspectorUrl := some "https://vercel.com/inspect/dpl_1"
          toolType := "deployment_status" }) :=
  ⟨C7_success_envelopes.1 happyUpstream ⟨"gh", "vc"⟩ deployParams
      ⟨okDeployment, okProject,
        "Successfully initiated deployment of acme/site to Vercel"⟩
      rfl rfl,
    C7_success_envelopes.2 happyUpstream "vc"
      ⟨none, none, none, some (.str "dpl_1")⟩
      (DeploymentService.summarize okDeployment) rfl rfl⟩

/-- Counterexample for C1: an authenticated deployRepo invocation with the
repoUrl parameter missing is answered with status 500 (the validation throw
escapes to the outer catch), not the 400 the claim states. -/
theorem C1_param_failure_counterexample :
    AppController.handleToolBearer happyUpstream
      ⟨"deployRepo", some "Bearer gh:vc", emptyParams⟩ =
      .failure ⟨"Missing required parameter: repoUrl", 500,
        "Tool execution failed"⟩ ∧
    (500 : Nat) ≠ 400 :=
  ⟨rfl, by decide⟩

/-- Claim C1 (amended): missing authentication yields 401 — also for the
header that is exactly the Bearer marker, whose extracted empty token fails
the truthiness check — a present malformed combined token yields 400, an
unknown tool name yields 404, and any escaped exception — including every
parameter-validation failure of deployRepo and the missing-deploymentId
failure of getDeploymentStatus — yields 500, not 400. -/
theorem C1_amended_status_mapping :
    (∀ (u : Upstream) (req : AppController.BearerRequest),
      AppController.extractBearerToken req.authorization = none →
      AppController.handleToolBearer u req =
        .failure ⟨"Deployment tools require authentication. Please provide Bearer token in format \"github_token:vercel_token\"",
          401, "Missing Authorization header with Bearer token"⟩) ∧
    (∀ (u : Upstream) (req : AppController.BearerRequest),
      AppController.extractBearerToken req.authorization = some "" →
      AppController.handleToolBearer u req =
        .failure ⟨"Deployment tools require authentication. Please provide Bearer token in format \"github_token:vercel_token\"",
          401, "Missing Authorization header with Bearer token"⟩) ∧
    (∀ (u : Upstream) (req : AppController.BearerRequest) (tok m : String),
      AppController.extractBearerToken req.authorization = some tok →
      tok ≠ "" →
      DeploymentService.parseTokens tok = .error m →
      AppController.handleToolBearer u req =
        .failure ⟨m, 400,
          "Token format should be \"github_token:vercel_token\""⟩) ∧
    (∀ (u : Upstream) (req : AppController.BearerRequest) (tok : String)
       (tokens : DeploymentService.TokenPair) (m : String),
      AppController.extractBearerToken req.authorization = some tok →
      DeploymentService.parseTokens tok = .ok tokens →
      req.toolName = "deployRepo" →
      AppController.validateDeployRepoParameters req.params = .error m →
      AppController.handleToolBearer u req =
        .failure ⟨m, 500, "Tool execution failed"⟩) ∧
    (∀ (u : Upstream) (req : AppController.BearerRequest) (tok : String)
       (tokens : DeploymentService.TokenPair),
      AppController.extractBearerToken req.authorization = some tok →
      DeploymentService.parseTokens tok = .ok tokens →
      req.toolName = "getDeploymentStatus" →
      jsTruthy req.params.deploymentId = false →
      AppController.handleToolBearer u req =
        .failure ⟨"Missing required parameter: deploymentId", 500,
          "Tool execution failed"⟩) ∧
    (∀ (u : Upstream) (req : AppController.BearerRequest) (tok : String)
       (tokens : DeploymentService.TokenPair),
      AppController.extractBearerToken req.authorization = some tok →
      DeploymentService.parseTokens tok = .ok tokens →
      req.toolName ≠ "deployRepo" →
      req.toolName ≠ "getDeploymentStatus" →
      AppController.handleToolBearer u req =
        .failure ⟨"Unknown tool: " ++ req.toolName, 404,
          "Available tools: deployRepo, getDeploymentStatus"⟩) := by
  refine ⟨?_, ?_, ?_, ?_, ?_, ?_⟩
  · intro u req h
    simp [AppController.handleToolBearer, h]
  · intro u req h
    simp [AppController.handleToolBearer, h]
  · intro u req tok m h1 hne h2
    simp [AppController.handleToolBearer, h1, hne, h2]
  · intro u req tok tokens m h1 h2 h3 h4
    have hne := parseTokens_okay_nonempty tok tokens h2
    simp [AppController.handleToolBearer, AppController.dispatchTool,
      AppController.handleDeployRepo, h1, hne, h2, h3, h4, except_error_bind]
  · intro u req tok tokens h1 h2 h3 h4
    have hne := parseTokens_okay_nonempty tok tokens h2
    simp [AppController.handleToolBearer, AppController.dispatchTool,
      AppController.handleGetDeploymentStatus, h1, hne, h2, h3, h4, throw,
      throwThe, MonadExceptOf.throw, except_error_bind]
  · intro u req tok tokens h1 h2 h3 h4
    have hne := parseTokens_okay_nonempty tok tokens h2
    simp [AppController.handleToolBearer, AppController.dispatchTool, h1, hne,
      h2, h3, h4]

/-- Witness for C1 (amended): concrete requests exercising the two 401
outcomes (no header, and the bare Bearer marker), the 400, 500 and 404
outcomes. -/
theorem C1_amended_status_mapping_witness :
    AppController.handleToolBearer happyUpstream
      ⟨"deployRepo", none, emptyParams⟩ =
      .failure ⟨"Deployment tools require authentication. Please provide Bearer token in format \"github_token:vercel_token\"",
        401, "Missing Authorization header with Bearer token"⟩ ∧
    AppController.handleToolBearer happyUpstream
      ⟨"deployRepo", some "Bearer ", emptyParams⟩ =
      .failure ⟨"Deployment tools require authentication. Please provide Bearer token in format \"github_token:vercel_token\"",
        401, "Missing Authorization header with Bearer token"⟩ ∧
    AppController.handleToolBearer happyUpstream
      ⟨"deployRepo", some "Bearer nocolon", emptyParams⟩ =
      .failure ⟨"Token format should be \"github_token:vercel_token\"", 400,
        "Token format should be \"github_token:vercel_token\""⟩ ∧
    AppController.handleToolBearer happyUpstream
      ⟨"getDeploymentStatus", some "Bearer gh:vc", emptyParams⟩ =
      .failure ⟨"Missing required parameter: deploymentId", 500,
        "Tool execution failed"⟩ ∧
    AppController.handleToolBearer happyUpstream
      ⟨"listTools", some "Bearer gh:vc", emptyParams⟩ =
      .failure ⟨"Unknown tool: listTools", 404,
        "Available tools: deployRepo, getDeploymentStatus"⟩ :=
  ⟨C1_amended_status_mapping.1 happyUpstream
      ⟨"deployRepo", none, emptyParams⟩ rfl,
    C1_amended_status_mapping.2.1 happyUpstream
      ⟨"deployRepo", some "Bearer ", emptyParams⟩ rfl,
    C1_amended_status_mapping.2.2.1 happyUpstream
      ⟨"deployRepo", some "Bearer nocolon", emptyParams⟩ "nocolon"
      "Token format should be \"github_token:vercel_token\"" rfl (by decide)
      rfl,
    C1_amended_status_mapping.2.2.2.2.1 happyUpstream
      ⟨"getDeploymentStatus", some "Bearer gh:vc", emptyParams⟩ "gh:vc"
      ⟨"gh", "vc"⟩ rfl rfl rfl rfl,
    C1_amended_status_mapping.2.2.2.2.2 happyUpstream
      ⟨"listTools", some "Bearer gh:vc", emptyParams⟩ "gh:vc"
      ⟨"gh", "vc"⟩ rfl rfl (by decide) (by decide)⟩

/-- Counterexample for C4: under the combined bearer-token transport a
present token whose credential sides are both blank is answered with status
400 from the token parser, not the 401 authentication error the claim
states. -/
theorem C4_blank_bearer_counterexample :
    AppController.handleToolBearer happyUpstream
      ⟨"deployRepo", some "Bearer :", emptyParams⟩ =
      .failure ⟨"Both GitHub and Vercel tokens are required", 400,
        "Token format should be \"github_token:vercel_token\""⟩ ∧
    (400 : Nat) ≠ 401 :=
  ⟨rfl, by decide⟩

/-- Claim C4 (amended): under the two-header transport an absent, empty or
whitespace-only credential always yields 401 before any tool runs; under the
combined bearer-token transport an absent or malformed Authorization header
yields 401, but a present bearer token with an empty or whitespace-only
credential side yields 400 from the token parser instead. -/
theorem C4_amended_credential_gate :
    (∀ (u : Upstream) (req : AppController.HeaderRequest),
      AppController.extractTokensFromHeaders req.xGithub req.xVercel = none →
      AppController.handleToolHeaders u req =
        .failure ⟨"Deployment tools require authentication. Please provide x-github and x-vercel headers",
          401, "Missing x-github and/or x-vercel headers"⟩) ∧
    (∀ g v : String, jsTrim g = "" ∨ jsTrim v = "" →
      AppController.extractTokensFromHeaders (some g) (some v) = none) ∧
    (∀ v : Option String,
      AppController.extractTokensFromHeaders none v = none) ∧
    (∀ g : Option String,
      AppController.extractTokensFromHeaders g none = none) ∧
    (∀ (u : Upstream) (req : AppController.BearerRequest),
      AppController.extractBearerToken req.authorization = none →
      AppController.handleToolBearer u req =
        .failure ⟨"Deployment tools require authentication. Please provide Bearer token in format \"github_token:vercel_token\"",
          401, "Missing Authorization header with Bearer token"⟩) ∧
    (∀ (u : Upstream) (req : AppController.BearerRequest) (tok gh vc : String),
      AppController.extractBearerToken req.authorization = some tok →
      jsSplit tok ':' = [gh, vc] →
      jsTrim gh = "" ∨ jsTrim vc = "" →
      AppController.handleToolBearer u req =
        .failure ⟨"Both GitHub and Vercel tokens are required", 400,
          "Token format should be \"github_token:vercel_token\""⟩) := by
  refine ⟨?_, ?_, fun v => rfl, ?_, ?_, ?_⟩
  · intro u req h
    simp [AppController.handleToolHeaders, h]
  · intro g v h
    rcases h with h | h
    · by_cases hg : g = ""
      · simp [AppController.extractTokensFromHeaders, hg]
      · simp [AppController.extractTokensFromHeaders, hg, h]
    · by_cases hg : g = ""
      · simp [AppController.extractTokensFromHeaders, hg]
      · by_cases hv : v = ""
        · simp [AppController.extractTokensFromHeaders, hg, hv]
        · simp [AppController.extractTokensFromHeaders, hg, hv, h]
  · intro g
    cases g <;> rfl
  · intro u req h
    simp [AppController.handleToolBearer, h]
  · intro u req tok gh vc h1 h2 h3
    have hne := split_two_nonempty tok gh vc h2
    have hparse : DeploymentService.parseTokens tok =
        .error "Both GitHub and Vercel tokens are required" := by
      unfold DeploymentService.parseTokens
      rw [h2]
      rcases h3 with h | h <;> simp [h]
    simp [AppController.handleToolBearer, h1, hne, hparse]

/-- Witness for C4 (amended): concrete header requests with blank or absent
credentials answer 401; a concrete bearer request with a blank credential
side answers 400. -/
theorem C4_amended_credential_gate_witness :
    AppController.handleToolHeaders happyUpstream
      ⟨"deployRepo", some " ", some "vc", emptyParams⟩ =
      .failure ⟨"Deployment tools require authentication. Please provide x-github and x-vercel headers",
        401, "Missing x-github and/or x-vercel headers"⟩ ∧
    AppController.extractTokensFromHeaders (some "gh") (some " ") = none ∧
    AppController.handleToolBearer happyUpstream
      ⟨"deployRepo", some "Bearer gh: ", emptyParams⟩ =
      .failure ⟨"Both GitHub and Vercel tokens are required", 400,
        "Token format should be \"github_token:vercel_token\""⟩ :=
  ⟨C4_amended_credential_gate.1 happyUpstream
      ⟨"deployRepo", some " ", some "vc", emptyParams⟩ rfl,
    C4_amended_credential_gate.2.1 "gh" " " (Or.inr rfl),
    C4_amended_credential_gate.2.2.2.2.2 happyUpstream
      ⟨"deployRepo", some "Bearer gh: ", emptyParams⟩ "gh: " "gh" " "
      rfl rfl (Or.inr rfl)⟩

/-- Claim C9: when the GitHub lookup answers HTTP 404 for the requested
owner and repo during an authenticated, well-formed deploy, the caller
receives the 400 error envelope whose message is the deploy prefix followed
by the repository-not-found text naming the repoUrl. -/
theorem C9_repo_not_found_envelope :
    ∀ (u : Upstream) (req : AppController.BearerRequest)
      (tok : String) (tokens : DeploymentService.TokenPair)
      (urlStr owner repo m : String),
      AppController.extractBearerToken req.authorization = some tok →
      DeploymentService.parseTokens tok = .ok tokens →
      req.toolName = "deployRepo" →
      req.params.repoUrl = some (.str urlStr) →
      AppController.validateDeployRepoParameters req.params = .ok () →
      GitHubService.parseGitHubUrl urlStr = .ok (owner, repo) →
      u.githubApi tokens.githubToken owner repo = .err (some 404) m →
      AppController.handleToolBearer u req =
        .failure ⟨"Deployment failed: " ++
          ("Repository not found or not accessible: " ++ urlStr), 400,
          "Deployment failed"⟩ := by
  intro u req tok tokens urlStr owner repo m h1 h2 h3 h4 h5 h6 h7
  have hflow : DeploymentService.deployFlow u tokens
      (AppController.serviceParams req.params) =
      .error ("Repository not found or not accessible: " ++ urlStr) := by
    simp [DeploymentService.deployFlow, GitHubService.validateRepository,
      AppController.serviceParams, h4, h6, h7, JsonValue.toStr,
      except_error_bind]
  have hdeploy : DeploymentService.deployRepository u tokens
      (AppController.serviceParams req.params) =
      .error ("Deployment failed: " ++
        ("Repository not found or not accessible: " ++ urlStr)) := by
    simp [DeploymentService.deployRepository, hflow]
  have hne := parseTokens_okay_nonempty tok tokens h2
  simp [AppController.handleToolBearer, AppController.dispatchTool,
    AppController.handleDeployRepo, h1, hne, h2, h3, h5, hdeploy,
    except_okay_bind]

/-- Witness for C9: with the 404-answering GitHub oracle and the concrete
acme/site request, the caller receives the concrete 400 envelope, and its
message contains the words "not found". -/
theorem C9_repo_not_found_envelope_witness :
    AppController.handleToolBearer notFoundUpstream
      ⟨"deployRepo", some "Bearer gh:vc", deployParams⟩ =
      .failure ⟨"Deployment failed: Repository not found or not accessible: "
        ++ "https://github.com/acme/site", 400, "Deployment failed"⟩ ∧
    jsIncludes
      ("Deployment failed: Repository not found or not accessible: " ++
        "https://github.com/acme/site") "not found" = true :=
  ⟨C9_repo_not_found_envelope notFoundUpstream
      ⟨"deployRepo", some "Bearer gh:vc", deployParams⟩ "gh:vc" ⟨"gh", "vc"⟩
      "https://github.com/acme/site" "acme" "site" "Not Found"
      rfl rfl rfl rfl rfl rfl rfl,
    by decide⟩
